import Mathlib

/-!
Shallow embedding of the Mandelbrot set explorer
(src/mandelbrot-explorer.tsx).

JavaScript double-precision numbers are modelled as exact rationals.
The expression Math.min(1000, Math.floor(100 * Math.log2 z)) is embedded
as min 1000 (Int.log 2 (z ^ 100)), using the identity
floor (100 * log2 z) = floor (log2 (z ^ 100)) = Int.log 2 (z ^ 100)
for z > 0 (Int.log is the floor of the real base-b logarithm on ℚ).
-/

/-- RGB triple, one JavaScript number per channel. -/
abbrev RGB := ℤ × ℤ × ℤ

/-- Palette: ordered list of RGB triples, as in the colorPalettes record. -/
abbrev Palette := List RGB

/-- The initial palette entry of the colorPalettes record. -/
def initialPalette : Palette :=
  [(0, 7, 100), (32, 107, 203), (237, 255, 255), (255, 170, 0),
   (0, 2, 0), (237, 255, 255), (255, 170, 0), (0, 2, 0)]

/-- The original palette entry of the colorPalettes record. -/
def originalPalette : Palette :=
  [(66, 30, 15), (25, 7, 26), (9, 1, 47), (4, 4, 73),
   (0, 7, 100), (12, 44, 138), (24, 82, 177), (57, 125, 209),
   (134, 181, 229), (211, 236, 248), (241, 233, 191), (248, 201, 95),
   (255, 170, 0), (204, 128, 0), (153, 87, 0), (106, 52, 3)]

/-- The cool palette entry of the colorPalettes record. -/
def coolPalette : Palette :=
  [(0, 0, 0), (0, 7, 100), (32, 107, 203), (237, 255, 255),
   (255, 170, 0), (0, 2, 0)]

/-- The warm palette entry of the colorPalettes record. -/
def warmPalette : Palette :=
  [(0, 0, 0), (102, 2, 4), (255, 0, 0), (255, 200, 0), (255, 255, 255)]

/-- The grayscale palette entry of the colorPalettes record. -/
def grayscalePalette : Palette :=
  [(0, 0, 0), (32, 32, 32), (64, 64, 64), (128, 128, 128),
   (192, 192, 192), (255, 255, 255)]

/-- The psychedelic palette entry of the colorPalettes record. -/
def psychedelicPalette : Palette :=
  [(0, 0, 0), (255, 0, 0), (255, 255, 0), (0, 255, 0),
   (0, 255, 255), (0, 0, 255), (255, 0, 255)]

/-- The ocean palette entry of the colorPalettes record. -/
def oceanPalette : Palette :=
  [(0, 0, 32), (0, 128, 255), (0, 255, 255), (255, 255, 255)]

/-- The forest palette entry of the colorPalettes record. -/
def forestPalette : Palette :=
  [(0, 32, 0), (0, 64, 0), (0, 128, 0), (128, 255, 0), (255, 255, 0)]

/-- Embedding of the colorPalettes record from the source, in order. -/
def colorPalettes : List (String × Palette) :=
  [("initial", initialPalette), ("original", originalPalette),
   ("cool", coolPalette), ("warm", warmPalette),
   ("grayscale", grayscalePalette), ("psychedelic", psychedelicPalette),
   ("ocean", oceanPalette), ("forest", forestPalette)]

/-- Embedding of Math.round for the nonnegative channel values produced by
the palette interpolation: round half up, i.e. floor (q + 1/2). -/
def jsRound (q : ℚ) : ℤ := ⌊q + 1 / 2⌋

/-- Embedding of the colorPalette callback (lines 100-115): piecewise-linear
interpolation of the palette at parameter t.  Out-of-range list accesses
(impossible for t in the unit interval) default to black. -/
def colorFor (t : ℚ) (palette : Palette) : RGB :=
  let n : ℕ := palette.length
  let i : ℤ := ⌊t * ((n : ℚ) - 1)⌋
  let f : ℚ := t * ((n : ℚ) - 1) - (i : ℚ)
  let color1 := palette.getD i.toNat (0, 0, 0)
  let color2 := palette.getD (min (i.toNat + 1) (n - 1)) (0, 0, 0)
  (jsRound ((color1.1 : ℚ) * (1 - f) + (color2.1 : ℚ) * f),
   jsRound ((color1.2.1 : ℚ) * (1 - f) + (color2.2.1 : ℚ) * f),
   jsRound ((color1.2.2 : ℚ) * (1 - f) + (color2.2.2 : ℚ) * f))

/-- The while loop of drawMandelbrot (lines 130-139), recursing on the
remaining iteration budget maxIter - iteration; returns the number of
completed increments, i.e. the final value of the iteration counter.
The orbit (cX, cY) is updated first and the escape test is applied to the
updated point; on escape the counter is not incremented. -/
def mandelAux (zx zy : ℚ) : ℚ → ℚ → ℕ → ℕ
  | _, _, 0 => 0
  | cX, cY, r + 1 =>
    let xtemp := cX * cX - cY * cY + zx
    let cY2 := 2 * cX * cY + zy
    let cX2 := xtemp
    if cX2 * cX2 + cY2 * cY2 > 4 then 0
    else mandelAux zx zy cX2 cY2 r + 1

/-- The escape evaluation for a plane point (zx, zy): the orbit variable is
seeded at (zx, zy) itself (lines 127-128) and iterated up to maxIter times. -/
def evaluate (zx zy : ℚ) (maxIter : ℕ) : ℕ := mandelAux zx zy zx zy maxIter

/-- Per-pixel body of drawMandelbrot (lines 120-141): plane coordinates from
the pixel, escape evaluation, then black for the sentinel or a palette color. -/
def drawPixel (width height centerX centerY zoom : ℚ) (maxIterations : ℕ)
    (palette : Palette) (isMiniMap : Bool) (x y : ℚ) : RGB :=
  let aspect := width / height
  let scale : ℚ := if isMiniMap then 50 else zoom
  let zx := ((x - width / 2) / scale) * aspect +
    (if isMiniMap then -(1 / 2 : ℚ) else centerX)
  let zy := (y - height / 2) / scale + centerY
  let maxIter : ℕ := if isMiniMap then 50 else maxIterations
  let iteration := evaluate zx zy maxIter
  if iteration = maxIter then (0, 0, 0)
  else colorFor ((iteration : ℚ) / (maxIter : ℚ)) palette

/-- A zoom-history snapshot: exactly the fields pushed on line 227. -/
structure Snapshot where
  centerX : ℚ
  centerY : ℚ
  zoom : ℚ
  deriving DecidableEq

/-- The React state of the explorer component (lines 89-98) that the
navigation and capture handlers read and write. -/
structure ExplorerState where
  centerX : ℚ
  centerY : ℚ
  zoom : ℚ
  maxIterations : ℤ
  zoomHistory : List Snapshot
  isSelectingArea : Bool
  selectionStart : Option (ℚ × ℚ)
  selectionEnd : Option (ℚ × ℚ)
  deriving DecidableEq

/-- Initial state from the useState initialisers (lines 89-98). -/
def initialState : ExplorerState :=
  { centerX := 0
    centerY := 0
    zoom := 200
    maxIterations := 100
    zoomHistory := []
    isSelectingArea := false
    selectionStart := none
    selectionEnd := none }

/-- Embedding of the iteration-budget update
Math.min(1000, Math.floor(100 * Math.log2 z)). -/
def budgetOf (z : ℚ) : ℤ := min 1000 (Int.log 2 (z ^ 100))

/-- Embedding of handleZoom (lines 216-236): a click at canvas pixel (x, y)
on a width x height canvas.  In selection mode the handler returns early. -/
def handleZoom (s : ExplorerState) (x y width height : ℚ) : ExplorerState :=
  if s.isSelectingArea then s
  else
    let aspect := width / height
    let newCenterX := s.centerX + ((x - width / 2) / s.zoom) * aspect
    let newCenterY := s.centerY + (y - height / 2) / s.zoom
    { s with
      zoomHistory := s.zoomHistory ++ [⟨s.centerX, s.centerY, s.zoom⟩]
      centerX := newCenterX
      centerY := newCenterY
      zoom := s.zoom * 2
      maxIterations := budgetOf (s.zoom * 2) }

/-- Embedding of handleUndoZoom (lines 238-247): pop the last snapshot if
any, restore its center and zoom, and recompute the iteration budget from
the restored zoom. -/
def handleUndoZoom (s : ExplorerState) : ExplorerState :=
  match s.zoomHistory.getLast? with
  | none => s
  | some previousState =>
    { s with
      centerX := previousState.centerX
      centerY := previousState.centerY
      zoom := previousState.zoom
      maxIterations := budgetOf previousState.zoom
      zoomHistory := s.zoomHistory.dropLast }

/-- Embedding of handleResetView (lines 249-255). -/
def handleResetView (s : ExplorerState) : ExplorerState :=
  { s with
    centerX := 0
    centerY := 0
    zoom := 200
    maxIterations := 100
    zoomHistory := [] }

/-- Capture artifact of handleMouseUp: the extracted sub-rectangle and the
plane-space metadata stamped into and attached to the exported image. -/
structure CaptureArtifact where
  left : ℚ
  top : ℚ
  rectWidth : ℚ
  rectHeight : ℚ
  exportCenterX : ℚ
  exportCenterY : ℚ
  exportScale : ℚ
  deriving DecidableEq

/-- Embedding of handleMouseUp (lines 306-353) on a width x height canvas.
Returns the produced artifact, if any, and the successor state.  The canvas
getImageData call rejects a zero-sized rectangle (it throws IndexSizeError
per the HTML canvas standard), so a degenerate selection aborts the handler
before any artifact is produced and before the selection state is reset. -/
def handleMouseUp (s : ExplorerState) (width height : ℚ) :
    Option CaptureArtifact × ExplorerState :=
  if s.isSelectingArea = false then (none, s)
  else
    match s.selectionStart, s.selectionEnd with
    | some selStart, some selEnd =>
      let aspect := width / height
      let left := min selStart.1 selEnd.1
      let top := min selStart.2 selEnd.2
      let rectWidth := |selEnd.1 - selStart.1|
      let rectHeight := |selEnd.2 - selStart.2|
      let selectionCenterX :=
        s.centerX + ((left + rectWidth / 2 - width / 2) / s.zoom) * aspect
      let selectionCenterY :=
        s.centerY + (top + rectHeight / 2 - height / 2) / s.zoom
      let selectionZoom :=
        s.zoom * min (width / rectWidth) (height / rectHeight)
      if rectWidth = 0 ∨ rectHeight = 0 then (none, s)
      else
        (some ⟨left, top, rectWidth, rectHeight,
               selectionCenterX, selectionCenterY, selectionZoom⟩,
         { s with
           isSelectingArea := false
           selectionStart := none
           selectionEnd := none })
    | _, _ => (none, s)

/-- Reachable states of the navigation state machine: the initial state
closed under zoom-in clicks, undo, and reset. -/
inductive Reachable : ExplorerState → Prop
  | init : Reachable initialState
  | zoom (s : ExplorerState) (x y w h : ℚ) :
      Reachable s → Reachable (handleZoom s x y w h)
  | undo (s : ExplorerState) : Reachable s → Reachable (handleUndoZoom s)
  | reset (s : ExplorerState) : Reachable s → Reachable (handleResetView s)

/-- Selection-mode variant of the initial state, used as a concrete input. -/
def selectingState : ExplorerState :=
  { initialState with isSelectingArea := true }

/-- Concrete state with a width-zero (degenerate) selection rectangle. -/
def degenerateState : ExplorerState :=
  { initialState with
    isSelectingArea := true
    selectionStart := some (5, 5)
    selectionEnd := some (5, 9) }

/-- Concrete state whose selection rectangle is the full 800 x 600 buffer. -/
def fullSelState : ExplorerState :=
  { initialState with
    isSelectingArea := true
    selectionStart := some (0, 0)
    selectionEnd := some (800, 600) }

lemma intLog_pow100_200 : Int.log 2 ((200 : ℚ) ^ 100) = 764 := by
  rw [show ((200 : ℚ) ^ 100) = ((200 ^ 100 : ℕ) : ℚ) by push_cast; norm_num,
    Int.log_natCast]
  norm_cast
  apply Nat.log_eq_of_pow_le_of_lt_pow <;> norm_num

lemma intLog_pow100_400 : Int.log 2 ((400 : ℚ) ^ 100) = 864 := by
  rw [show ((400 : ℚ) ^ 100) = ((400 ^ 100 : ℕ) : ℚ) by push_cast; norm_num,
    Int.log_natCast]
  norm_cast
  apply Nat.log_eq_of_pow_le_of_lt_pow <;> norm_num

lemma budgetOf_200 : budgetOf 200 = 764 := by
  rw [budgetOf, intLog_pow100_200]; norm_num

lemma budgetOf_400 : budgetOf 400 = 864 := by
  rw [budgetOf, intLog_pow100_400]; norm_num

lemma budgetOf_bounds (z : ℚ) (hz : 2 ≤ z) :
    100 ≤ budgetOf z ∧ budgetOf z ≤ 1000 := by
  refine ⟨le_min (by norm_num) ?_, min_le_left _ _⟩
  have hpos : (0 : ℚ) < z ^ 100 := by positivity
  have h2 : ((2 : ℕ) : ℚ) ^ (100 : ℤ) ≤ z ^ 100 := by
    have he : ((2 : ℕ) : ℚ) ^ (100 : ℤ) = (2 : ℚ) ^ (100 : ℕ) := by norm_num
    rw [he]
    exact pow_le_pow_left₀ (by norm_num) hz 100
  exact (Int.zpow_le_iff_le_log (by norm_num) hpos).mp h2

lemma mandelAux_origin (r : ℕ) : mandelAux 0 0 0 0 r = r := by
  induction r with
  | zero => rfl
  | succ n ih =>
    rw [mandelAux]
    norm_num [ih]

/-- C5: for every x > 2, every y, and every iteration budget N >= 1, the
escape evaluation at (x, y) returns 0: the orbit exceeds the escape radius
on the first check, before the counter is ever incremented. -/
theorem escape_outside_radius (x y : ℚ) (N : ℕ) (hx : 2 < x) (hN : 1 ≤ N) :
    evaluate x y N = 0 := by
  obtain ⟨r, rfl⟩ : ∃ r, N = r + 1 := ⟨N - 1, by omega⟩
  show mandelAux x y x y (r + 1) = 0
  have hy : (0 : ℚ) ≤ y * y := mul_self_nonneg y
  have hxx : (0 : ℚ) ≤ 2 * x * x + 2 * x + 1 := by nlinarith
  have hkey : (x * x - y * y + x) * (x * x - y * y + x) +
      (2 * x * y + y) * (2 * x * y + y) =
      (x * x + x) * (x * x + x) + y * y * (y * y) +
        y * y * (2 * x * x + 2 * x + 1) := by ring
  have hgt : (x * x - y * y + x) * (x * x - y * y + x) +
      (2 * x * y + y) * (2 * x * y + y) > 4 := by
    rw [hkey]
    nlinarith [mul_nonneg hy hy, mul_nonneg hy hxx]
  simp only [mandelAux]
  rw [if_pos hgt]

/-- Witness for C5 at the concrete input x = 3, y = 1, N = 5. -/
theorem escape_outside_radius_witness :
    (2 : ℚ) < 3 ∧ 1 ≤ 5 ∧ evaluate 3 1 5 = 0 :=
  ⟨by norm_num, by norm_num, escape_outside_radius 3 1 5 (by norm_num) (by norm_num)⟩

/-- C6: for every iteration budget N >= 1, the escape evaluation at the
plane origin returns N: the orbit never escapes, so the loop runs to the
budget and returns the did-not-escape sentinel N. -/
theorem origin_never_escapes (N : ℕ) (_hN : 1 ≤ N) : evaluate 0 0 N = N :=
  mandelAux_origin N

/-- Witness for C6 at the concrete budget N = 7. -/
theorem origin_never_escapes_witness : 1 ≤ 7 ∧ evaluate 0 0 7 = 7 :=
  ⟨by norm_num, origin_never_escapes 7 (by norm_num)⟩

/-- C10: while selection mode is active, a canvas click performs no
navigation: center, zoom, iteration budget, and history are unchanged. -/
theorem selection_click_no_navigation (s : ExplorerState) (x y w h : ℚ)
    (hsel : s.isSelectingArea = true) :
    (handleZoom s x y w h).centerX = s.centerX ∧
    (handleZoom s x y w h).centerY = s.centerY ∧
    (handleZoom s x y w h).zoom = s.zoom ∧
    (handleZoom s x y w h).maxIterations = s.maxIterations ∧
    (handleZoom s x y w h).zoomHistory = s.zoomHistory := by
  simp [handleZoom, hsel]

/-- Witness for C10 at a concrete selecting state and click. -/
theorem selection_click_no_navigation_witness :
    selectingState.isSelectingArea = true ∧
    ((handleZoom selectingState 100 100 800 600).centerX =
        selectingState.centerX ∧
      (handleZoom selectingState 100 100 800 600).centerY =
        selectingState.centerY ∧
      (handleZoom selectingState 100 100 800 600).zoom =
        selectingState.zoom ∧
      (handleZoom selectingState 100 100 800 600).maxIterations =
        selectingState.maxIterations ∧
      (handleZoom selectingState 100 100 800 600).zoomHistory =
        selectingState.zoomHistory) :=
  ⟨rfl, selection_click_no_navigation selectingState 100 100 800 600 rfl⟩

/-- C3, corrected: from the default viewport, a click at the center of an
800 x 600 buffer leaves the center unchanged, doubles the scale to 400, and
sets the iteration budget to floor (100 * log2 400) = 864. -/
theorem center_click_scenario :
    (handleZoom initialState 400 300 800 600).centerX = 0 ∧
    (handleZoom initialState 400 300 800 600).centerY = 0 ∧
    (handleZoom initialState 400 300 800 600).zoom = 400 ∧
    (handleZoom initialState 400 300 800 600).maxIterations = 864 := by
  have h := budgetOf_400
  simp only [handleZoom, initialState]
  norm_num [h]

/-- Counterexample for C3 as stated: the budget after the center click is
not 863. -/
theorem center_click_budget_not_863 :
    (handleZoom initialState 400 300 800 600).maxIterations ≠ 863 := by
  have h := budgetOf_400
  simp only [handleZoom, initialState]
  norm_num [h]

/-- C1, corrected: zoom-in then undo restores the prior centerX, centerY,
scale and history exactly, but the iteration budget is recomputed from the
restored scale (the history snapshot stores no budget). -/
theorem zoom_undo_restores_center_zoom (s : ExplorerState) (x y w h : ℚ)
    (hsel : s.isSelectingArea = false) :
    (handleUndoZoom (handleZoom s x y w h)).centerX = s.centerX ∧
    (handleUndoZoom (handleZoom s x y w h)).centerY = s.centerY ∧
    (handleUndoZoom (handleZoom s x y w h)).zoom = s.zoom ∧
    (handleUndoZoom (handleZoom s x y w h)).zoomHistory = s.zoomHistory ∧
    (handleUndoZoom (handleZoom s x y w h)).maxIterations = budgetOf s.zoom := by
  simp [handleZoom, hsel, handleUndoZoom, List.getLast?_concat,
    List.dropLast_concat]

/-- Witness for C1 (amended) at the default state and a center click. -/
theorem zoom_undo_restores_center_zoom_witness :
    initialState.isSelectingArea = false ∧
    ((handleUndoZoom (handleZoom initialState 400 300 800 600)).centerX =
        initialState.centerX ∧
      (handleUndoZoom (handleZoom initialState 400 300 800 600)).centerY =
        initialState.centerY ∧
      (handleUndoZoom (handleZoom initialState 400 300 800 600)).zoom =
        initialState.zoom ∧
      (handleUndoZoom (handleZoom initialState 400 300 800 600)).zoomHistory =
        initialState.zoomHistory ∧
      (handleUndoZoom (handleZoom initialState 400 300 800 600)).maxIterations =
        budgetOf initialState.zoom) :=
  ⟨rfl, zoom_undo_restores_center_zoom initialState 400 300 800 600 rfl⟩

/-- Counterexample for C1 as stated: zoom-in then undo from the default
viewport does not restore the prior iteration budget 100; the recomputed
budget is min 1000 (floor (100 * log2 200)) = 764. -/
theorem zoom_undo_budget_counterexample :
    (handleUndoZoom (handleZoom initialState 400 300 800 600)).maxIterations ≠
      initialState.maxIterations := by
  have h := budgetOf_200
  simp [handleZoom, handleUndoZoom, initialState, List.getLast?_concat,
    List.dropLast_concat, h]

/-- C2, corrected: in overview (minimap) mode every pixel is computed with
fixed scale 50, fixed horizontal center -0.5 and fixed budget 50, so the
overview content is independent of the live centerX, scale, and iteration
budget; the vertical coordinate, however, still uses the live centerY. -/
theorem overview_independent_of_centerX_zoom_budget
    (w h cx cx2 cy z z2 : ℚ) (mi mi2 : ℕ) (pal : Palette) (x y : ℚ) :
    drawPixel w h cx cy z mi pal true x y =
      drawPixel w h cx2 cy z2 mi2 pal true x y := rfl

/-- Counterexample for C2 as stated: the overview image depends on the live
viewport through centerY.  At minimap pixel (100, 75) of a 150 x 150 buffer,
live centers (0, 1) and (0, 2) give different pixel colors with the same
scale and budget. -/
theorem overview_depends_on_centerY :
    drawPixel 150 150 0 1 200 100 initialPalette true 100 75 ≠
      drawPixel 150 150 0 2 200 100 initialPalette true 100 75 := by
  with_unfolding_all decide

/-- C8: for every registered palette, colorFor 0 is the first palette entry
and colorFor 1 is the last palette entry, with no index overrun at ratio 1. -/
theorem colorFor_endpoints :
    ∀ pr ∈ colorPalettes,
      colorFor 0 pr.2 = pr.2.headD (0, 0, 0) ∧
      colorFor 1 pr.2 = pr.2.getLastD (0, 0, 0) := by
  with_unfolding_all decide

/-- Witness for C8 at the registered initial palette. -/
theorem colorFor_endpoints_witness :
    ("initial", initialPalette) ∈ colorPalettes ∧
    (colorFor 0 initialPalette = initialPalette.headD (0, 0, 0) ∧
      colorFor 1 initialPalette = initialPalette.getLastD (0, 0, 0)) :=
  ⟨by simp [colorPalettes],
   colorFor_endpoints ("initial", initialPalette) (by simp [colorPalettes])⟩

/-- C4: when the normalized selection rectangle has non-positive width or
height, the mouse-up handler produces no capture artifact. -/
theorem degenerate_selection_no_artifact (s : ExplorerState) (w h : ℚ)
    (ps pe : ℚ × ℚ) (hs : s.selectionStart = some ps)
    (he : s.selectionEnd = some pe)
    (hdeg : |pe.1 - ps.1| ≤ 0 ∨ |pe.2 - ps.2| ≤ 0) :
    (handleMouseUp s w h).1 = none := by
  cases hb : s.isSelectingArea with
  | false => simp [handleMouseUp, hb]
  | true =>
    rcases hdeg with h1 | h1 <;>
    · have h0 := le_antisymm h1 (abs_nonneg _)
      simp [handleMouseUp, hb, hs, he, h0]

/-- Witness for C4 at a concrete state with a width-zero selection. -/
theorem degenerate_selection_no_artifact_witness :
    degenerateState.selectionStart = some (5, 5) ∧
    degenerateState.selectionEnd = some (5, 9) ∧
    (|(5 : ℚ) - 5| ≤ 0 ∨ |(9 : ℚ) - 5| ≤ 0) ∧
    (handleMouseUp degenerateState 800 600).1 = none :=
  ⟨rfl, rfl, Or.inl (by norm_num),
   degenerate_selection_no_artifact degenerateState 800 600 (5, 5) (5, 9)
     rfl rfl (Or.inl (by norm_num))⟩

/-- C7: capture of a selection rectangle equal to the full buffer returns
the live scale and the live center as export metadata. -/
theorem fullbuffer_capture (s : ExplorerState) (w h : ℚ)
    (hsel : s.isSelectingArea = true)
    (hs : s.selectionStart = some (0, 0))
    (he : s.selectionEnd = some (w, h))
    (hw : 0 < w) (hh : 0 < h) :
    (handleMouseUp s w h).1 =
      some ⟨0, 0, w, h, s.centerX, s.centerY, s.zoom⟩ := by
  have hw0 : w ≠ 0 := ne_of_gt hw
  have hh0 : h ≠ 0 := ne_of_gt hh
  simp [handleMouseUp, hsel, hs, he, abs_of_pos hw, abs_of_pos hh, hw.le,
    hh.le, min_eq_left hw.le, min_eq_left hh.le, div_self hw0, div_self hh0,
    hw0, hh0]

/-- Witness for C7 at a concrete full-buffer selection. -/
theorem fullbuffer_capture_witness :
    fullSelState.isSelectingArea = true ∧
    fullSelState.selectionStart = some (0, 0) ∧
    fullSelState.selectionEnd = some (800, 600) ∧
    (0 : ℚ) < 800 ∧ (0 : ℚ) < 600 ∧
    (handleMouseUp fullSelState 800 600).1 =
      some ⟨0, 0, 800, 600, fullSelState.centerX, fullSelState.centerY,
        fullSelState.zoom⟩ :=
  ⟨rfl, rfl, rfl, by norm_num, by norm_num,
   fullbuffer_capture fullSelState 800 600 rfl rfl rfl (by norm_num)
     (by norm_num)⟩

lemma le_zoom_form (k : ℕ) : (200 : ℚ) ≤ 200 * 2 ^ k := by
  have h2k : (1 : ℚ) ≤ 2 ^ k := one_le_pow₀ one_le_two
  nlinarith

/-- C9: every state reachable from the initial state by zoom-in, undo, and
reset transitions has scale 200 * 2 ^ k for some k >= 0 (hence scale >= 200),
the same for every stacked snapshot, and iteration budget in [100, 1000]. -/
theorem reachable_invariant (s : ExplorerState) (hr : Reachable s) :
    (∃ k : ℕ, s.zoom = 200 * 2 ^ k) ∧
    (∀ snap ∈ s.zoomHistory, ∃ k : ℕ, snap.zoom = 200 * 2 ^ k) ∧
    200 ≤ s.zoom ∧ 100 ≤ s.maxIterations ∧ s.maxIterations ≤ 1000 := by
  induction hr with
  | init =>
    exact ⟨⟨0, by norm_num [initialState]⟩, by simp [initialState],
      by norm_num [initialState], by norm_num [initialState],
      by norm_num [initialState]⟩
  | zoom s x y w h hr ih =>
    obtain ⟨⟨k, hk⟩, hhist, hge, hlo, hhi⟩ := ih
    cases hb : s.isSelectingArea with
    | true => simpa [handleZoom, hb] using ⟨⟨k, hk⟩, hhist, hge, hlo, hhi⟩
    | false =>
      have hz2 : (2 : ℚ) ≤ s.zoom * 2 := by linarith
      have hbud := budgetOf_bounds (s.zoom * 2) hz2
      refine ⟨⟨k + 1, ?_⟩, ?_, ?_, ?_, ?_⟩ <;>
        simp only [handleZoom, hb, Bool.false_eq_true, if_false]
      · rw [hk]; ring
      · intro snap hmem
        rcases List.mem_append.mp hmem with hin | hin
        · exact hhist snap hin
        · rcases List.mem_singleton.mp hin with rfl
          exact ⟨k, hk⟩
      · linarith
      · exact hbud.1
      · exact hbud.2
  | undo s hr ih =>
    obtain ⟨⟨k, hk⟩, hhist, hge, hlo, hhi⟩ := ih
    cases hg : s.zoomHistory.getLast? with
    | none => simpa [handleUndoZoom, hg] using ⟨⟨k, hk⟩, hhist, hge, hlo, hhi⟩
    | some prev =>
      have hmem : prev ∈ s.zoomHistory := List.mem_of_mem_getLast? hg
      obtain ⟨j, hj⟩ := hhist prev hmem
      have hgej : (200 : ℚ) ≤ prev.zoom := hj ▸ le_zoom_form j
      have hbud := budgetOf_bounds prev.zoom (by linarith)
      refine ⟨⟨j, ?_⟩, ?_, ?_, ?_, ?_⟩ <;>
        simp only [handleUndoZoom, hg]
      · exact hj
      · intro snap hmem2
        exact hhist snap (List.dropLast_subset s.zoomHistory hmem2)
      · exact hgej
      · exact hbud.1
      · exact hbud.2
  | reset s hr ih =>
    exact ⟨⟨0, by norm_num [handleResetView]⟩, by simp [handleResetView],
      by norm_num [handleResetView], by norm_num [handleResetView],
      by norm_num [handleResetView]⟩

/-- Witness for C9 at the initial state itself. -/
theorem reachable_invariant_witness :
    Reachable initialState ∧
    ((∃ k : ℕ, initialState.zoom = 200 * 2 ^ k) ∧
      (∀ snap ∈ initialState.zoomHistory,
        ∃ k : ℕ, snap.zoom = 200 * 2 ^ k) ∧
      200 ≤ initialState.zoom ∧
      100 ≤ initialState.maxIterations ∧
      initialState.maxIterations ≤ 1000) :=
  ⟨Reachable.init, reachable_invariant initialState Reachable.init⟩
